import Mathlib

/-!
Shallow embedding of the membership-management backend (`src/main.py`,
`src/schemas.py`) and verification of its specification.

The document store (`database.py`: the global handle `db`, `create_document`,
`get_documents`) is not part of the provided sources; its operations are
modelled from the spec (§4.1 Document Store Adapter): `create` appends a
document to the named collection and returns a fresh store-assigned
identifier; `list` returns documents in store-native order (here: list
order), optionally filtered and truncated to a limit.  Store-assigned
identifiers are modelled as naturals (`nextId` counter); an absent store
handle (`db` unset) is modelled as `none : Option Store`.

Machine-level details that do not affect any claim (BSON ObjectId rendering,
HTTP/JSON plumbing, CORS) are elided; handler results are modelled as
`Except Err output × Option Store`, the second component being the store
after the call (errors raised before any write leave it unchanged, exactly
as in the Python control flow, where every `raise HTTPException` in these
handlers precedes the first write).
-/

/-- An HTTP error raised via `HTTPException(status_code, detail)`. -/
structure Err where
  status : Nat
  detail : String
deriving Repr, DecidableEq

/-- A persisted `member` document (fields set by `register_member` plus the
store-assigned id). -/
structure MemberDoc where
  id : Nat
  name : String
  email : String
  role : String
  subscription_status : String
  provider : Option String
  plan : Option String
deriving Repr, DecidableEq

/-- A persisted `invoicerequest` document (created by the invoice branch of
`subscribe`). -/
structure InvoiceRequestDoc where
  id : Nat
  member_email : String
  company : Option String
  notes : Option String
  status : String
deriving Repr, DecidableEq

/-- A persisted `message` document.  `created_at` is optional: documents
written by `post_message` carry no creation timestamp, but the listing code
tolerates (and sorts by) one when present, via `x.get("created_at", 0)`. -/
structure MessageDoc where
  id : Nat
  member_email : String
  content : String
  channel : String
  created_at : Option Nat
deriving Repr, DecidableEq

/-- A persisted `resource` document. -/
structure ResourceDoc where
  id : Nat
  title : String
  type : String
  description : Option String
  url : Option String
  tags : List String
deriving Repr, DecidableEq

/-- A persisted `video` document. -/
structure VideoDoc where
  id : Nat
  title : String
  vimeo_id : String
  description : Option String
  category : Option String
deriving Repr, DecidableEq

/-- Modelled from the spec: the document store (`database.py` is absent from
`src/`).  One list per collection, in store-native (insertion) order, plus
the counter from which store-assigned identifiers are drawn. -/
structure Store where
  nextId : Nat := 0
  members : List MemberDoc := []
  invoicerequests : List InvoiceRequestDoc := []
  messages : List MessageDoc := []
  resources : List ResourceDoc := []
  videos : List VideoDoc := []
deriving Repr, DecidableEq

/-- `member_by_email`: `db["member"].find_one({"email": email}) if db else None`.
`find_one` returns the first matching document in store-native order. -/
def member_by_email (db : Option Store) (email : String) : Option MemberDoc :=
  match db with
  | none => none
  | some s => s.members.find? (fun m => m.email == email)

/-- `is_admin`: `bool(m and m.get("role") == "admin")`. -/
def is_admin (db : Option Store) (email : String) : Bool :=
  match member_by_email db email with
  | none => false
  | some m => m.role == "admin"

/-- `GET /api/admin/is_admin` handler `admin_check`. -/
def admin_check (db : Option Store) (email : String) : String × Bool :=
  (email, is_admin db email)

/-- The members of the store behind an optional handle (`[]` when no store is
configured). -/
def membersOf (db : Option Store) : List MemberDoc :=
  match db with
  | none => []
  | some s => s.members

/-- Truthiness of an optional string in Python: `None` and `""` are falsy.
Used for the `if not x_admin_email`, `if role:` and `if subscription_status:`
tests. -/
def truthyS (x : Option String) : Bool :=
  match x with
  | none => false
  | some s => s != ""

/-- Python's `str.lower()` (character-wise lowercasing; the provider strings
involved are ASCII).  Defined on the character list so that the kernel can
evaluate it. -/
def pyLower (s : String) : String :=
  String.mk (s.data.map Char.toLower)

/-- The admin gate shared by the four admin-only handlers:
`if not x_admin_email or not is_admin(x_admin_email): raise 403`.
The handler proceeds iff the header is truthy and `is_admin` holds. -/
def adminOk (db : Option Store) (x_admin_email : Option String) : Bool :=
  match x_admin_email with
  | none => false
  | some e => (e != "") && is_admin db e

/-- `db["member"].update_one({"email": email}, {"$set": ...})`: apply `f` to
the first member whose email matches, leave every other document alone. -/
def setFirst (ms : List MemberDoc) (email : String) (f : MemberDoc → MemberDoc) :
    List MemberDoc :=
  match ms with
  | [] => []
  | m :: rest => if m.email == email then f m :: rest else m :: setFirst rest email f

/-- Request body of `POST /api/members/register`. -/
structure RegisterRequest where
  name : String
  email : String
deriving Repr, DecidableEq

/-- Request body of `POST /api/subscribe`. -/
structure SubscribeRequest where
  email : String
  provider : String
  company : Option String := none
  notes : Option String := none
deriving Repr, DecidableEq

/-- Request body of `POST /api/messages` (pydantic default channel
`"general"`). -/
structure MessageCreate where
  member_email : String
  content : String
  channel : String := "general"
deriving Repr, DecidableEq

/-- Request body of `POST /api/resources`. -/
structure ResourceCreate where
  title : String
  type : String
  description : Option String := none
  url : Option String := none
  tags : List String := []
deriving Repr, DecidableEq

/-- Request body of `POST /api/videos`. -/
structure VideoCreate where
  title : String
  vimeo_id : String
  description : Option String := none
  category : Option String := none
deriving Repr, DecidableEq

/-- Response body of `POST /api/subscribe`. -/
structure SubscribeOut where
  message : String
  status : String
  checkout_url : Option String
deriving Repr, DecidableEq

/-- `POST /api/members/register` handler `register_member`.  The store write
(`create_document("member", doc)`) is modelled from the spec: append with a
fresh id; with no store configured the adapter fails Unavailable. -/
def register_member (db : Option Store) (p : RegisterRequest) :
    Except Err (Nat × String) × Option Store :=
  match member_by_email db p.email with
  | some _ => (.error ⟨400, "Email already registered"⟩, db)
  | none =>
    match db with
    | none => (.error ⟨503, "Database unavailable"⟩, none)
    | some s =>
      (.ok (s.nextId, "Registered"),
       some { s with
              nextId := s.nextId + 1,
              members := s.members ++
                [⟨s.nextId, p.name, p.email, "member", "inactive", none, some "$49/mo"⟩] })

/-- `GET /api/members` handler `list_members`. -/
def list_members (db : Option Store) (x_admin_email : Option String) :
    Except Err (List MemberDoc) × Option Store :=
  if adminOk db x_admin_email then
    match db with
    | none => (.error ⟨503, "Database unavailable"⟩, none)
    | some s => (.ok s.members, some s)
  else (.error ⟨403, "Admin only"⟩, db)

/-- `PATCH /api/members/update` handler `update_member`.  A supplied field
enters `updates` only when truthy (`if role:` / `if subscription_status:`),
so an empty string counts as not supplied.  (The branch pairing `db = none`
with a successful member lookup is dead: `member_by_email none _ = none`.) -/
def update_member (db : Option Store) (email : String)
    (role subscription_status : Option String) (x_admin_email : Option String) :
    Except Err String × Option Store :=
  if adminOk db x_admin_email then
    match db, member_by_email db email with
    | _, none => (.error ⟨404, "Member not found"⟩, db)
    | none, some _ => (.error ⟨404, "Member not found"⟩, none)
    | some s, some _ =>
      let role' := if truthyS role then role else none
      let subscription_status' :=
        if truthyS subscription_status then subscription_status else none
      if role'.isNone && subscription_status'.isNone then
        (.error ⟨400, "No updates provided"⟩, some s)
      else
        (.ok "Updated",
         some { s with
                members := setFirst s.members email (fun m =>
                  { m with
                    role := role'.getD m.role,
                    subscription_status := subscription_status'.getD m.subscription_status }) })
  else (.error ⟨403, "Admin only"⟩, db)

/-- `POST /api/subscribe` handler `subscribe`.  The invoice branch's
`create_document("invoicerequest", ...)` is modelled from the spec: append
with a fresh id.  (The `none, some _` branch is dead as above.) -/
def subscribe (db : Option Store) (p : SubscribeRequest) :
    Except Err SubscribeOut × Option Store :=
  match db, member_by_email db p.email with
  | _, none => (.error ⟨404, "Member not found"⟩, db)
  | none, some _ => (.error ⟨404, "Member not found"⟩, none)
  | some s, some _ =>
    let provider := pyLower p.provider
    if provider ∈ ["stripe", "paypal", "invoice"] then
      let checkout_url : Option String :=
        if provider = "stripe" then some "https://buy.stripe.com/test_12345"
        else if provider = "paypal" then some "https://www.paypal.com/checkoutnow?token=TEST123"
        else none
      let status := if provider = "invoice" then "pending" else "active"
      let s1 :=
        if provider = "invoice" then
          { s with
            nextId := s.nextId + 1,
            invoicerequests := s.invoicerequests ++
              [⟨s.nextId, p.email, p.company, p.notes, "requested"⟩] }
        else s
      (.ok ⟨"Subscription initiated", status, checkout_url⟩,
       some { s1 with
              members := setFirst s1.members p.email (fun m =>
                { m with subscription_status := status, provider := some provider }) })
    else (.error ⟨400, "Invalid provider"⟩, some s)

/-- `POST /api/videos` handler `add_video` (store write modelled from the
spec as for `register_member`). -/
def add_video (db : Option Store) (p : VideoCreate) (x_admin_email : Option String) :
    Except Err (Nat × String) × Option Store :=
  if adminOk db x_admin_email then
    match db with
    | none => (.error ⟨503, "Database unavailable"⟩, none)
    | some s =>
      (.ok (s.nextId, "Video added"),
       some { s with
              nextId := s.nextId + 1,
              videos := s.videos ++ [⟨s.nextId, p.title, p.vimeo_id, p.description, p.category⟩] })
  else (.error ⟨403, "Admin only"⟩, db)

/-- `POST /api/resources` handler `add_resource` (store write modelled from
the spec as for `register_member`). -/
def add_resource (db : Option Store) (p : ResourceCreate) (x_admin_email : Option String) :
    Except Err (Nat × String) × Option Store :=
  if adminOk db x_admin_email then
    match db with
    | none => (.error ⟨503, "Database unavailable"⟩, none)
    | some s =>
      (.ok (s.nextId, "Resource added"),
       some { s with
              nextId := s.nextId + 1,
              resources := s.resources ++
                [⟨s.nextId, p.title, p.type, p.description, p.url, p.tags⟩] })
  else (.error ⟨403, "Admin only"⟩, db)

/-- `POST /api/messages` handler `post_message`.  The document written is
`payload.model_dump()`: member_email, content, channel — no creation
timestamp. -/
def post_message (db : Option Store) (p : MessageCreate) :
    Except Err (Nat × String) × Option Store :=
  match db, member_by_email db p.member_email with
  | _, none => (.error ⟨404, "Member not found"⟩, db)
  | none, some _ => (.error ⟨404, "Member not found"⟩, none)
  | some s, some m =>
    if m.subscription_status ∈ ["active", "past_due", "pending"] then
      (.ok (s.nextId, "Posted"),
       some { s with
              nextId := s.nextId + 1,
              messages := s.messages ++
                [⟨s.nextId, p.member_email, p.content, p.channel, none⟩] })
    else (.error ⟨403, "Subscription required"⟩, some s)

/-- Modelled from the spec: `get_documents("message", {"channel": channel},
limit=limit)` (`database.py` is absent from `src/`).  `list` returns matching
documents in store-native order, truncated to the limit; with no store
configured the adapter fails Unavailable. -/
def get_documents_messages (db : Option Store) (channel : String) (limit : Nat) :
    Except Err (List MessageDoc) :=
  match db with
  | none => .error ⟨503, "Database unavailable"⟩
  | some s => .ok ((s.messages.filter (fun m => m.channel == channel)).take limit)

/-- The sort key of `msgs.sort(key=lambda x: x.get("created_at", 0), ...)`:
a missing creation timestamp counts as 0. -/
def sortKey (m : MessageDoc) : Nat :=
  m.created_at.getD 0

/-- `GET /api/messages` handler `list_messages`.  Python's `list.sort`
with `reverse=True` is a stable descending sort by the key; it is modelled
by `List.insertionSort` with the relation "not smaller key", which is the
same stable descending order. -/
def list_messages (db : Option Store) (channel : String := "general") (limit : Nat := 50) :
    Except Err (List MessageDoc) :=
  match get_documents_messages db channel limit with
  | .error e => .error e
  | .ok msgs => .ok (msgs.insertionSort (fun a b => sortKey b ≤ sortKey a))

/-- A concrete store with one admin and one ordinary member, used by
witnesses. -/
def exStore : Store :=
  { nextId := 2,
    members := [⟨0, "A", "a@x.com", "admin", "active", none, some "$49/mo"⟩,
                ⟨1, "B", "b@x.com", "member", "inactive", none, some "$49/mo"⟩] }

/-- `find?` on a list split around the first match returns that match. -/
theorem find?_middle (email : String) (pre post : List MemberDoc) (m : MemberDoc)
    (hpre : ∀ y ∈ pre, (y.email == email) = false) (hm : m.email = email) :
    (pre ++ m :: post).find? (fun y => y.email == email) = some m := by
  induction pre with
  | nil => simp [List.find?_cons, hm]
  | cons y ys ih =>
    have hy := hpre y (List.mem_cons_self y ys)
    simp only [List.cons_append, List.find?_cons, hy]
    exact ih (fun z hz => hpre z (List.mem_cons_of_mem y hz))

/-- `setFirst` on a list split around the first match rewrites exactly that
match. -/
theorem setFirst_middle (email : String) (f : MemberDoc → MemberDoc)
    (pre post : List MemberDoc) (m : MemberDoc)
    (hpre : ∀ y ∈ pre, (y.email == email) = false) (hm : m.email = email) :
    setFirst (pre ++ m :: post) email f = pre ++ f m :: post := by
  induction pre with
  | nil => simp [setFirst, hm]
  | cons y ys ih =>
    have hy := hpre y (List.mem_cons_self y ys)
    simp only [List.cons_append, setFirst, hy, if_neg]
    simp only [Bool.false_eq_true, if_false, List.cons.injEq, true_and]
    exact ih (fun z hz => hpre z (List.mem_cons_of_mem y hz))

/-- With no store handle, the admin gate never passes. -/
theorem adminOk_none (x : Option String) : adminOk none x = false := by
  cases x <;> simp [adminOk, is_admin, member_by_email]

/-- C10: with no store configured (`db` absent), `member_by_email` returns
`None` for every email, hence `is_admin` is false for every email, the
`is_admin` query reports `is_admin = false`, and every admin-gated handler
(member listing, member update, video creation, resource creation) answers
403 Forbidden — not Unavailable — leaving the (absent) store as it is. -/
theorem no_store_admin_gate_forbidden :
    (∀ email, member_by_email none email = none) ∧
    (∀ email, is_admin none email = false) ∧
    (∀ email, admin_check none email = (email, false)) ∧
    (∀ x, list_members none x = (.error ⟨403, "Admin only"⟩, none)) ∧
    (∀ email role ss x,
      update_member none email role ss x = (.error ⟨403, "Admin only"⟩, none)) ∧
    (∀ p x, add_video none p x = (.error ⟨403, "Admin only"⟩, none)) ∧
    (∀ p x, add_resource none p x = (.error ⟨403, "Admin only"⟩, none)) := by
  refine ⟨fun _ => rfl, fun _ => rfl, fun _ => rfl, ?_, ?_, ?_, ?_⟩
  · intro x; simp [list_members, adminOk_none]
  · intro email role ss x; simp [update_member, adminOk_none]
  · intro p x; simp [add_video, adminOk_none]
  · intro p x; simp [add_resource, adminOk_none]

/-- C3: every admin-gated handler called with a missing `X-Admin-Email`
header, or with one that does not belong to an admin member, fails 403
Forbidden and returns the store exactly as it was: nothing is created or
modified. -/
theorem admin_gate_forbidden_no_mutation (db : Option Store) (x : Option String)
    (h : x = none ∨ ∃ e, x = some e ∧ is_admin db e = false) :
    list_members db x = (.error ⟨403, "Admin only"⟩, db) ∧
    (∀ email role ss, update_member db email role ss x = (.error ⟨403, "Admin only"⟩, db)) ∧
    (∀ p, add_video db p x = (.error ⟨403, "Admin only"⟩, db)) ∧
    (∀ p, add_resource db p x = (.error ⟨403, "Admin only"⟩, db)) := by
  have hgate : adminOk db x = false := by
    rcases h with rfl | ⟨e, rfl, he⟩
    · rfl
    · simp [adminOk, he]
  exact ⟨by simp [list_members, hgate],
         fun email role ss => by simp [update_member, hgate],
         fun p => by simp [add_video, hgate],
         fun p => by simp [add_resource, hgate]⟩

/-- Witness for C3: a missing header and a non-admin member's header are
both rejected on a concrete store, without touching it. -/
theorem admin_gate_forbidden_no_mutation_witness :
    list_members (some exStore) none = (.error ⟨403, "Admin only"⟩, some exStore) ∧
    add_video (some exStore) ⟨"t", "v1", none, none⟩ (some "b@x.com") =
      (.error ⟨403, "Admin only"⟩, some exStore) :=
  ⟨(admin_gate_forbidden_no_mutation (some exStore) none (Or.inl rfl)).1,
   (admin_gate_forbidden_no_mutation (some exStore) (some "b@x.com")
      (Or.inr ⟨"b@x.com", rfl, by decide⟩)).2.2.1 _⟩

/-- C4: subscribing an email with no member record fails 404 Not Found and
writes nothing: the store after the call is the store before it (no
InvoiceRequest created, no member modified). -/
theorem subscribe_nonexistent_member (db : Option Store) (p : SubscribeRequest)
    (h : member_by_email db p.email = none) :
    subscribe db p = (.error ⟨404, "Member not found"⟩, db) := by
  cases db <;> simp [subscribe, h]

/-- Witness for C4: subscribing an unknown email on a concrete store. -/
theorem subscribe_nonexistent_member_witness :
    subscribe (some exStore) ⟨"ghost@x.com", "stripe", none, none⟩ =
      (.error ⟨404, "Member not found"⟩, some exStore) :=
  subscribe_nonexistent_member (some exStore) ⟨"ghost@x.com", "stripe", none, none⟩
    (by decide)

/-- C8: for every email, `is_admin` never fails (it is a total boolean
function) and returns `true` iff a member with that exact email exists whose
`role` field is exactly `"admin"`; `false` both when no such member exists
and when the member's role differs.  The email-uniqueness invariant of the
data model (§3: email unique across Members) is assumed, since `find_one`
inspects only the first match. -/
theorem is_admin_iff_admin_member_exists (db : Option Store) (email : String)
    (huniq : ∀ m1 ∈ membersOf db, ∀ m2 ∈ membersOf db, m1.email = m2.email → m1 = m2) :
    is_admin db email = true ↔
      ∃ m ∈ membersOf db, m.email = email ∧ m.role = "admin" := by
  constructor
  · intro h
    match db with
    | none => simp [is_admin, member_by_email] at h
    | some s =>
      simp only [is_admin, member_by_email] at h
      match hf : s.members.find? (fun m => m.email == email) with
      | none => rw [hf] at h; simp at h
      | some m =>
        rw [hf] at h
        have hm : m ∈ s.members := List.mem_of_find?_eq_some hf
        have hp := List.find?_some hf
        exact ⟨m, hm, by simpa using hp, by simpa using h⟩
  · rintro ⟨m, hm, he, hr⟩
    match db with
    | none => simp [membersOf] at hm
    | some s =>
      simp only [membersOf] at hm huniq
      simp only [is_admin, member_by_email]
      match hf : s.members.find? (fun m => m.email == email) with
      | none =>
        have : ∀ x ∈ s.members, ¬((x.email == email) = true) :=
          fun x hx => by simpa using List.find?_eq_none.mp hf x hx
        exact absurd (by simpa using he) (this m hm)
      | some m0 =>
        have hm0 : m0 ∈ s.members := List.mem_of_find?_eq_some hf
        have hp := List.find?_some hf
        have : m0 = m := huniq m0 hm0 m hm (by simp at hp; rw [hp, he])
        rw [hf]
        simp [this, hr]

/-- Witness for C8: in a concrete store holding an admin and a plain member,
`is_admin` is `true` exactly for the admin's email. -/
theorem is_admin_iff_admin_member_exists_witness :
    is_admin (some exStore) "a@x.com" = true ↔
      ∃ m ∈ membersOf (some exStore), m.email = "a@x.com" ∧ m.role = "admin" :=
  is_admin_iff_admin_member_exists _ "a@x.com" (by decide)

/-- C6: registering an email already held by a member fails with the
duplicate-registration error (the spec's Conflict kind, HTTP 400 "Email
already registered") and creates nothing; registering a fresh email inserts
exactly one member with role `"member"`, subscription_status `"inactive"`,
provider `null`, plan `"$49/mo"`, and returns the new store-assigned
identifier. -/
theorem register_member_spec (s : Store) (p : RegisterRequest) :
    (member_by_email (some s) p.email ≠ none →
      register_member (some s) p = (.error ⟨400, "Email already registered"⟩, some s)) ∧
    (member_by_email (some s) p.email = none →
      register_member (some s) p =
        (.ok (s.nextId, "Registered"),
         some { s with
                nextId := s.nextId + 1,
                members := s.members ++
                  [⟨s.nextId, p.name, p.email, "member", "inactive", none, some "$49/mo"⟩] })) := by
  constructor
  · intro h
    match hm : member_by_email (some s) p.email with
    | none => exact absurd hm h
    | some m => simp [register_member, hm]
  · intro h
    simp [register_member, h]

/-- Witness for C6: on a concrete store, re-registering `a@x.com` is
rejected and registering the fresh `c@x.com` inserts the defaulted member. -/
theorem register_member_spec_witness :
    register_member (some exStore) ⟨"A2", "a@x.com"⟩ =
      (.error ⟨400, "Email already registered"⟩, some exStore) ∧
    register_member (some exStore) ⟨"C", "c@x.com"⟩ =
      (.ok (2, "Registered"),
       some { exStore with
              nextId := 3,
              members := exStore.members ++
                [⟨2, "C", "c@x.com", "member", "inactive", none, some "$49/mo"⟩] }) :=
  ⟨(register_member_spec exStore ⟨"A2", "a@x.com"⟩).1 (by decide),
   (register_member_spec exStore ⟨"C", "c@x.com"⟩).2 (by decide)⟩

/-- C7: posting a message fails 404 when the author email resolves to no
member; fails 403 when the author's subscription_status is outside
{active, past_due, pending} (in particular "inactive" and "canceled" are
outside it); otherwise inserts exactly one message carrying the author's
email, the content and the channel, whose request-level default is
"general".  Failures leave the store untouched. -/
theorem post_message_spec (s : Store) (p : MessageCreate) :
    (member_by_email (some s) p.member_email = none →
      post_message (some s) p = (.error ⟨404, "Member not found"⟩, some s)) ∧
    (∀ m, member_by_email (some s) p.member_email = some m →
      (m.subscription_status ∉ (["active", "past_due", "pending"] : List String) →
        post_message (some s) p = (.error ⟨403, "Subscription required"⟩, some s)) ∧
      (m.subscription_status ∈ (["active", "past_due", "pending"] : List String) →
        post_message (some s) p =
          (.ok (s.nextId, "Posted"),
           some { s with
                  nextId := s.nextId + 1,
                  messages := s.messages ++
                    [⟨s.nextId, p.member_email, p.content, p.channel, none⟩] }))) ∧
    ("inactive" ∉ (["active", "past_due", "pending"] : List String) ∧
     "canceled" ∉ (["active", "past_due", "pending"] : List String)) ∧
    (∀ e c, ({ member_email := e, content := c } : MessageCreate).channel = "general") := by
  refine ⟨?_, ?_, by decide, fun e c => rfl⟩
  · intro h
    simp [post_message, h]
  · intro m hm
    constructor
    · intro hns
      simp [post_message, hm, hns]
    · intro hyes
      simp [post_message, hm, hyes]

/-- Witness for C7: on a concrete store, the active member `a@x.com` posts
successfully and the inactive member `b@x.com` is rejected with 403. -/
theorem post_message_spec_witness :
    post_message (some exStore) ⟨"a@x.com", "hello", "general"⟩ =
      (.ok (2, "Posted"),
       some { exStore with
              nextId := 3,
              messages := [⟨2, "a@x.com", "hello", "general", none⟩] }) ∧
    post_message (some exStore) ⟨"b@x.com", "hi", "general"⟩ =
      (.error ⟨403, "Subscription required"⟩, some exStore) :=
  ⟨((post_message_spec exStore ⟨"a@x.com", "hello", "general"⟩).2.1
      ⟨0, "A", "a@x.com", "admin", "active", none, some "$49/mo"⟩ (by decide)).2 (by decide),
   ((post_message_spec exStore ⟨"b@x.com", "hi", "general"⟩).2.1
      ⟨1, "B", "b@x.com", "member", "inactive", none, some "$49/mo"⟩ (by decide)).1 (by decide)⟩

/-- C9: in `update_member`, a supplied but empty-string field is treated as
not supplied: an admin caller updating an existing member with role = ""
and subscription_status missing or likewise "" gets 400 "No updates
provided" and the store is returned unchanged. -/
theorem update_member_empty_string_is_absent (s : Store) (email : String)
    (m : MemberDoc) (x ss : Option String)
    (hx : adminOk (some s) x = true)
    (hm : member_by_email (some s) email = some m)
    (hss : ss = none ∨ ss = some "") :
    update_member (some s) email (some "") ss x =
      (.error ⟨400, "No updates provided"⟩, some s) := by
  rcases hss with rfl | rfl <;> simp [update_member, hx, hm, truthyS]

/-- Witness for C9: the concrete admin `a@x.com` sending role = "" for the
existing member `b@x.com` gets 400 and no change. -/
theorem update_member_empty_string_is_absent_witness :
    update_member (some exStore) "b@x.com" (some "") (some "") (some "a@x.com") =
      (.error ⟨400, "No updates provided"⟩, some exStore) :=
  update_member_empty_string_is_absent exStore "b@x.com"
    ⟨1, "B", "b@x.com", "member", "inactive", none, some "$49/mo"⟩
    (some "a@x.com") (some "") (by decide) (by decide) (Or.inr rfl)

/-- C5: for an admin caller, `update_member` fails 404 when the target email
resolves to no member; fails 400 when neither role nor subscription_status
is (truthily) supplied; otherwise performs a partial update in which only
the supplied fields of the first member with the target email change — its
other fields (id, name, email, provider, plan) and every other document in
the store are untouched.  Failures return the store unchanged. -/
theorem update_member_partial_update (s : Store) (email : String)
    (role ss x : Option String)
    (hx : adminOk (some s) x = true) :
    (member_by_email (some s) email = none →
      update_member (some s) email role ss x = (.error ⟨404, "Member not found"⟩, some s)) ∧
    (member_by_email (some s) email ≠ none →
      truthyS role = false → truthyS ss = false →
      update_member (some s) email role ss x = (.error ⟨400, "No updates provided"⟩, some s)) ∧
    (∀ pre m post, s.members = pre ++ m :: post →
      (∀ y ∈ pre, (y.email == email) = false) → m.email = email →
      (truthyS role = true ∨ truthyS ss = true) →
      update_member (some s) email role ss x =
        (.ok "Updated",
         some { s with
                members := pre ++
                  { m with
                    role := (if truthyS role then role else none).getD m.role,
                    subscription_status :=
                      (if truthyS ss then ss else none).getD m.subscription_status } :: post })) := by
  refine ⟨?_, ?_, ?_⟩
  · intro h
    simp [update_member, hx, h]
  · intro h hrole hss
    match hm : member_by_email (some s) email with
    | none => exact absurd hm h
    | some m => simp [update_member, hx, hm, hrole, hss]
  · intro pre m post hsplit hpre hm hsupplied
    have hfind : member_by_email (some s) email = some m := by
      simp only [member_by_email, hsplit]
      exact find?_middle email pre post m hpre hm
    have hset : ∀ f, setFirst s.members email f = pre ++ f m :: post := fun f => by
      rw [hsplit]; exact setFirst_middle email f pre post m hpre hm
    have hnonempty :
        ((if truthyS role then role else none).isNone &&
         (if truthyS ss then ss else none).isNone) = false := by
      rcases hsupplied with h | h <;> rw [h] <;> simp <;> cases role <;> cases ss <;>
        simp_all [truthyS]
    simp only [update_member, hx, if_true, hfind]
    simp [hnonempty, hset]

/-- Witness for C5: the concrete admin promotes `b@x.com` to moderator; only
the role field of that member changes. -/
theorem update_member_partial_update_witness :
    update_member (some exStore) "b@x.com" (some "moderator") none (some "a@x.com") =
      (.ok "Updated",
       some { exStore with
              members := [⟨0, "A", "a@x.com", "admin", "active", none, some "$49/mo"⟩] ++
                ⟨1, "B", "b@x.com", "moderator", "inactive", none, some "$49/mo"⟩ :: [] }) :=
  (update_member_partial_update exStore "b@x.com" (some "moderator") none
      (some "a@x.com") (by decide)).2.2
    [⟨0, "A", "a@x.com", "admin", "active", none, some "$49/mo"⟩]
    ⟨1, "B", "b@x.com", "member", "inactive", none, some "$49/mo"⟩ []
    rfl (by decide) rfl (Or.inl rfl)

/-- C2: for an existing member and a provider matching stripe / paypal /
invoice case-insensitively, `subscribe` succeeds; stripe and paypal return
their fixed non-null checkout URL, create no InvoiceRequest and set the
member's subscription_status to "active"; invoice returns a null checkout
URL, creates exactly one InvoiceRequest with status "requested" carrying the
member's email, the company and the notes, and sets subscription_status to
"pending"; every branch sets the member's provider field (to the lowercased
provider), and no other member field or other collection changes. -/
theorem subscribe_provider_spec (s : Store) (p : SubscribeRequest)
    (pre post : List MemberDoc) (m : MemberDoc)
    (hsplit : s.members = pre ++ m :: post)
    (hpre : ∀ y ∈ pre, (y.email == p.email) = false)
    (hm : m.email = p.email)
    (hp : pyLower p.provider = "stripe" ∨ pyLower p.provider = "paypal" ∨
          pyLower p.provider = "invoice") :
    ∃ out s', subscribe (some s) p = (.ok out, some s') ∧
      s'.members = pre ++
        { m with subscription_status := out.status,
                 provider := some (pyLower p.provider) } :: post ∧
      s'.messages = s.messages ∧ s'.resources = s.resources ∧ s'.videos = s.videos ∧
      (pyLower p.provider = "stripe" →
        out.status = "active" ∧
        out.checkout_url = some "https://buy.stripe.com/test_12345" ∧
        s'.invoicerequests = s.invoicerequests) ∧
      (pyLower p.provider = "paypal" →
        out.status = "active" ∧
        out.checkout_url = some "https://www.paypal.com/checkoutnow?token=TEST123" ∧
        s'.invoicerequests = s.invoicerequests) ∧
      (pyLower p.provider = "invoice" →
        out.status = "pending" ∧ out.checkout_url = none ∧
        s'.invoicerequests = s.invoicerequests ++
          [⟨s.nextId, p.email, p.company, p.notes, "requested"⟩]) := by
  have hfind : member_by_email (some s) p.email = some m := by
    simp only [member_by_email, hsplit]
    exact find?_middle p.email pre post m hpre hm
  have hset : ∀ f, setFirst s.members p.email f = pre ++ f m :: post := fun f => by
    rw [hsplit]; exact setFirst_middle p.email f pre post m hpre hm
  rcases hp with hcase | hcase | hcase
  · refine ⟨⟨"Subscription initiated", "active", some "https://buy.stripe.com/test_12345"⟩,
      { s with members := pre ++
          { m with subscription_status := "active", provider := some "stripe" } :: post },
      ?_, by simp [hcase], rfl, rfl, rfl,
      fun _ => ⟨rfl, rfl, rfl⟩,
      fun h => absurd (hcase ▸ h) (by decide),
      fun h => absurd (hcase ▸ h) (by decide)⟩
    simp [subscribe, hfind, hcase, hset]
  · refine ⟨⟨"Subscription initiated", "active",
        some "https://www.paypal.com/checkoutnow?token=TEST123"⟩,
      { s with members := pre ++
          { m with subscription_status := "active", provider := some "paypal" } :: post },
      ?_, by simp [hcase], rfl, rfl, rfl,
      fun h => absurd (hcase ▸ h) (by decide),
      fun _ => ⟨rfl, rfl, rfl⟩,
      fun h => absurd (hcase ▸ h) (by decide)⟩
    simp [subscribe, hfind, hcase, hset]
  · refine ⟨⟨"Subscription initiated", "pending", none⟩,
      { s with
        nextId := s.nextId + 1,
        invoicerequests := s.invoicerequests ++
          [⟨s.nextId, p.email, p.company, p.notes, "requested"⟩],
        members := pre ++
          { m with subscription_status := "pending", provider := some "invoice" } :: post },
      ?_, by simp [hcase], rfl, rfl, rfl,
      fun h => absurd (hcase ▸ h) (by decide),
      fun h => absurd (hcase ▸ h) (by decide),
      fun _ => ⟨rfl, rfl, rfl⟩⟩
    simp [subscribe, hfind, hcase, hset]

/-- Witness for C2: on the concrete store, `b@x.com` subscribing with
provider "INVOICE" (case-insensitive) creates the one InvoiceRequest and
marks the member pending/invoice. -/
theorem subscribe_provider_spec_witness :
    ∃ out s',
      subscribe (some exStore) ⟨"b@x.com", "INVOICE", some "Acme", some "po 7"⟩ =
        (.ok out, some s') ∧
      s'.members = [⟨0, "A", "a@x.com", "admin", "active", none, some "$49/mo"⟩] ++
        { (⟨1, "B", "b@x.com", "member", "inactive", none, some "$49/mo"⟩ : MemberDoc) with
          subscription_status := out.status,
          provider := some (pyLower "INVOICE") } :: [] ∧
      s'.messages = exStore.messages ∧ s'.resources = exStore.resources ∧
      s'.videos = exStore.videos ∧
      (pyLower "INVOICE" = "stripe" →
        out.status = "active" ∧
        out.checkout_url = some "https://buy.stripe.com/test_12345" ∧
        s'.invoicerequests = exStore.invoicerequests) ∧
      (pyLower "INVOICE" = "paypal" →
        out.status = "active" ∧
        out.checkout_url = some "https://www.paypal.com/checkoutnow?token=TEST123" ∧
        s'.invoicerequests = exStore.invoicerequests) ∧
      (pyLower "INVOICE" = "invoice" →
        out.status = "pending" ∧ out.checkout_url = none ∧
        s'.invoicerequests = exStore.invoicerequests ++
          [⟨exStore.nextId, "b@x.com", some "Acme", some "po 7", "requested"⟩]) :=
  subscribe_provider_spec exStore ⟨"b@x.com", "INVOICE", some "Acme", some "po 7"⟩
    [⟨0, "A", "a@x.com", "admin", "active", none, some "$49/mo"⟩]
    [] ⟨1, "B", "b@x.com", "member", "inactive", none, some "$49/mo"⟩
    rfl (by decide) rfl (Or.inr (Or.inr (by decide)))

/-- Oldest of three concrete messages in channel "X". -/
def exMsg1 : MessageDoc := ⟨0, "a@x.com", "first", "X", some 1⟩

/-- Middle of three concrete messages in channel "X". -/
def exMsg2 : MessageDoc := ⟨1, "a@x.com", "second", "X", some 2⟩

/-- Newest of three concrete messages in channel "X". -/
def exMsg3 : MessageDoc := ⟨2, "a@x.com", "third", "X", some 3⟩

/-- A store holding three messages of channel "X" in creation order. -/
def exMsgStore : Store := { nextId := 3, messages := [exMsg1, exMsg2, exMsg3] }

/-- C1 (amended): listing messages returns at most `limit` messages — the
first `limit` messages of the requested channel in store-native order, not
necessarily the most recent ones — sorted newest-first by creation time
among those returned (a missing timestamp sorting as time 0, i.e. oldest). -/
theorem list_messages_spec (s : Store) (channel : String) (limit : Nat) :
    ∃ L, list_messages (some s) channel limit = .ok L ∧
      L.length ≤ limit ∧
      L.Perm ((s.messages.filter (fun m => m.channel == channel)).take limit) ∧
      List.Sorted (fun a b => sortKey b ≤ sortKey a) L := by
  refine ⟨((s.messages.filter (fun m => m.channel == channel)).take limit).insertionSort
      (fun a b => sortKey b ≤ sortKey a), ?_, ?_, ?_, ?_⟩
  · rfl
  · rw [(List.perm_insertionSort _ _).length_eq]
    exact List.length_take_le _ _
  · exact List.perm_insertionSort _ _
  · haveI : IsTotal MessageDoc (fun a b => sortKey b ≤ sortKey a) :=
      ⟨fun a b => Nat.le_total (sortKey b) (sortKey a)⟩
    haveI : IsTrans MessageDoc (fun a b => sortKey b ≤ sortKey a) :=
      ⟨fun a b c hab hbc => Nat.le_trans hbc hab⟩
    exact List.sorted_insertionSort _ _

/-- Counterexample to C1 as stated: with 3 messages in channel "X" (creation
times 1, 2, 3 in store order) and limit 2, the code returns the two OLDEST
(sorted newest-first among themselves), because the limit is applied before
the sort; the newest message `exMsg3` is in the store and in channel "X" yet
absent from the result, which therefore is not the 2 newest newest-first. -/
theorem list_messages_limit_before_sort :
    list_messages (some exMsgStore) "X" 2 = .ok [exMsg2, exMsg1] ∧
    exMsg3 ∈ exMsgStore.messages ∧
    exMsg3.channel = "X" ∧
    exMsg1.created_at = some 1 ∧ exMsg2.created_at = some 2 ∧ exMsg3.created_at = some 3 ∧
    exMsg3 ∉ [exMsg2, exMsg1] ∧
    [exMsg2, exMsg1] ≠ [exMsg3, exMsg2] := by
  refine ⟨rfl, by decide, rfl, rfl, rfl, rfl, by decide, by decide⟩
